import Mathlib

/-!
Verification development for the ADScriptGen repository (frame organization,
scene-change log parsing, timeline merging, and the narration bridge).

The Python sources are shallowly embedded as Lean definitions:

* timestamps and scores are modelled as exact rationals (`ℚ`); Python `float`
  arithmetic on the small decimal values that occur here is idealized as exact
  rational arithmetic, and Python `round(x, 2)` is modelled as rounding the
  rational to two decimal places with ties to even (`pyRound2`);
* filesystem interaction is made explicit: a directory is an optional list of
  entry names (`none` = the directory does not exist), and file existence is a
  boolean-valued function on paths;
* external subprocess calls (ffmpeg, the generation service) are inputs: the
  scene-detection log content, the directory listing produced by extraction,
  and the generation call outcome are parameters of the embedded functions;
* Python exceptions that are caught by the enclosing `try/except` blocks are
  modelled as explicit error results carrying the exception message.
-/

/-- Characters stripped by Python `str.strip()` for the ASCII inputs that occur
here: space, tab, newline, carriage return, vertical tab, form feed. -/
def isPySpace (c : Char) : Bool :=
  c = ' ' || c = '\t' || c = '\n' || c = '\r' || c = '\x0b' || c = '\x0c'

/-- Model of Python `str.strip()` on the character list of a string: drop
leading and trailing whitespace. -/
def pyStrip (l : List Char) : List Char :=
  ((l.dropWhile isPySpace).reverse.dropWhile isPySpace).reverse

/-- Model of the Python split on the newline character used at
`scene_selection.py` line 139: split at every newline.  The empty string
yields the one-element list containing the empty line, exactly as the Python
split of the empty string does. -/
def splitNl : List Char → List (List Char)
  | [] => [[]]
  | c :: rest =>
    match splitNl rest with
    | [] => [[]]
    | line :: more =>
      if c = '\n' then [] :: line :: more else (c :: line) :: more

/-- Greedy match of the regex fragment `\d+\.?\d*` at the start of `cs`,
returning the matched characters; fails when no digit starts `cs`. -/
def matchFloatTok (cs : List Char) : Option (List Char) :=
  let ds := cs.takeWhile Char.isDigit
  if ds.isEmpty then none
  else
    match cs.drop ds.length with
    | '.' :: rest => some (ds ++ '.' :: rest.takeWhile Char.isDigit)
    | _ => some ds

/-- Model of an `re.search` for the literal `lit` followed by the float
pattern: find the leftmost position where `lit` is followed by a float token
and return that token. -/
def searchFloatAfter (lit : List Char) : List Char → Option (List Char)
  | [] => none
  | c :: cs =>
    if lit.isPrefixOf (c :: cs) then
      match matchFloatTok ((c :: cs).drop lit.length) with
      | some tok => some tok
      | none => searchFloatAfter lit cs
    else searchFloatAfter lit cs

/-- Model of an `re.search` for the literal `lit` followed by the one-or-more
digits pattern: find the leftmost position where `lit` is followed by at least
one digit and return the greedily matched digit run. -/
def searchNatAfter (lit : List Char) : List Char → Option (List Char)
  | [] => none
  | c :: cs =>
    if lit.isPrefixOf (c :: cs) then
      let ds := ((c :: cs).drop lit.length).takeWhile Char.isDigit
      if ds.isEmpty then searchNatAfter lit cs
      else some ds
    else searchNatAfter lit cs

/-- Numeric value of a digit run. -/
def digitsToNat (ds : List Char) : ℕ :=
  ds.foldl (fun n c => 10 * n + (c.toNat - 48)) 0

/-- Model of Python `float(...)` applied to a matched `\d+\.?\d*` token, as the
exact rational it denotes: the digit string with the dot removed over the power
of ten given by the number of fractional digits. -/
def floatTokToRat (tok : List Char) : ℚ :=
  let intPart := tok.takeWhile Char.isDigit
  let fracPart :=
    match tok.drop intPart.length with
    | '.' :: fs => fs
    | _ => []
  mkRat (digitsToNat (intPart ++ fracPart)) (10 ^ fracPart.length)

/-- SceneEvent as produced by `detect_scene_changes` in `scene_selection.py`:
a dict with keys `timestamp` and `scene_score`. -/
structure SceneEvent where
  timestamp : ℚ
  scene_score : ℚ
deriving DecidableEq

/-- Pair loop of `scene_selection.detect_scene_changes` (lines 140-154):
`for i in range(0, len(lines), 2)` with the `i + 1 < len(lines)` guard pairs
lines `(0,1), (2,3), ...`; a pair contributes an event exactly when the frame
line has a `pts_time:` float and the score line has a `scene_score=` float. -/
def parsePairs : List (List Char) → List SceneEvent
  | l0 :: l1 :: rest =>
    (match searchFloatAfter "pts_time:".data l0,
           searchFloatAfter "scene_score=".data l1 with
     | some t, some s => [⟨floatTokToRat t, floatTokToRat s⟩]
     | _, _ => []) ++ parsePairs rest
  | _ => []

/-- Parsing core of `scene_selection.detect_scene_changes` (lines 135-160),
applied to the content of the scene-detection log file (the ffmpeg invocation
that produces the file is external and is modelled by passing the content). -/
def detect_scene_changes (content : String) : List SceneEvent :=
  parsePairs (splitNl (pyStrip content.data))

/-- SceneChange dataclass of `video_processor.py`. -/
structure SceneChange where
  timestamp : ℚ
  frame_number : ℕ
  scene_score : ℚ
deriving DecidableEq

namespace FFmpegVideoProcessor

/-- Pair loop of `FFmpegVideoProcessor.detect_scene_changes` in
`video_processor.py` (lines 143-159): unlike the `scene_selection` parser, a
pair is emitted only when the frame line ALSO contains a `frame:` integer
field (`if pts_match and frame_match and score_match`). -/
def parsePairsVP : List (List Char) → List SceneChange
  | l0 :: l1 :: rest =>
    (match searchFloatAfter "pts_time:".data l0,
           searchNatAfter "frame:".data l0,
           searchFloatAfter "scene_score=".data l1 with
     | some t, some n, some s =>
       [⟨floatTokToRat t, digitsToNat n, floatTokToRat s⟩]
     | _, _, _ => []) ++ parsePairsVP rest
  | _ => []

/-- Parsing core of `FFmpegVideoProcessor.detect_scene_changes`
(`video_processor.py` lines 137-161), applied to the log file content. -/
def detect_scene_changes (content : String) : List SceneChange :=
  parsePairsVP (splitNl (pyStrip content.data))

end FFmpegVideoProcessor

/-- Rounding of a rational to the nearest integer with ties to even, the
rounding mode of Python `round`. -/
def roundHalfEven (q : ℚ) : ℤ :=
  let f : ℤ := ⌊q⌋
  if 2 * q < 2 * (f : ℚ) + 1 then f
  else if 2 * (f : ℚ) + 1 < 2 * q then f + 1
  else if f % 2 = 0 then f else f + 1

/-- Model of Python `round(x, 2)` (used for the `Time (seconds)` column):
round to two decimal places, ties to even. -/
def pyRound2 (q : ℚ) : ℚ :=
  (roundHalfEven (q * 100) : ℚ) / 100

/-- Model of Python floor-mod `x % m` for a positive modulus `m`. -/
def pyMod (x m : ℚ) : ℚ := x - m * (⌊x / m⌋ : ℤ)

/-- Zero-padding of Python format `{n:02d}` for the values arising here. -/
def pad2 (n : ℤ) : String :=
  if 0 ≤ n ∧ n < 10 then "0" ++ toString n else toString n

/-- Zero-padding of Python format `{n:03d}` for the values arising here. -/
def pad3 (n : ℤ) : String :=
  if 0 ≤ n ∧ n < 10 then "00" ++ toString n
  else if 0 ≤ n ∧ n < 100 then "0" ++ toString n
  else toString n

/-- Embedding of `format_timestamp` (`scene_selection.py` lines 163-169):
`HH:MM:SS.mmm` rendering of a time in seconds.  Python `int(...)` truncation
coincides with `Int.floor` on the non-negative values reaching it. -/
def format_timestamp (seconds : ℚ) : String :=
  let hours : ℤ := ⌊seconds / 3600⌋
  let minutes : ℤ := ⌊pyMod seconds 3600 / 60⌋
  let secs : ℤ := ⌊pyMod seconds 60⌋
  let millisecs : ℤ := ⌊pyMod seconds 1 * 1000⌋
  pad2 hours ++ ":" ++ pad2 minutes ++ ":" ++ pad2 secs ++ "." ++ pad3 millisecs

/-- Model of `os.path.join` for the relative paths joined in this program. -/
def pathJoin (a b : String) : String := a ++ "/" ++ b

/-- Derived frame timestamp, `timestamp = i / fps` (`scene_selection.py`
lines 57 and 295). -/
def frameTimestamp (fps : ℚ) (i : ℕ) : ℚ := (i : ℚ) / fps

/-- Row of the frame table before scene annotation; the fields mirror the dict
keys built at `scene_selection.py` lines 60-66 and 297-303. -/
structure FrameRow where
  timestampLabel : String
  timeSeconds : ℚ
  frameNumber : ℕ
  frameFile : String
  framePath : String
deriving DecidableEq

/-- Frame table construction (`scene_selection.py` lines 56-66 and 294-303):
for the i-th sorted frame file, `timestamp = i / fps`, with the row recording
the formatted label, `round(timestamp, 2)`, the 1-based frame number, the file
name and the joined path. -/
def buildRows (framesDir : String) (fps : ℚ) (files : List String) : List FrameRow :=
  files.enum.map (fun p =>
    { timestampLabel := format_timestamp (frameTimestamp fps p.1)
      timeSeconds := pyRound2 (frameTimestamp fps p.1)
      frameNumber := p.1 + 1
      frameFile := p.2
      framePath := pathJoin framesDir p.2 })

/-- Inner loop of the Timeline Merger (`scene_selection.py` lines 78-83 and
312-317): starting from the running `scene_number` and `scene_score`, walk the
scene list; on `frame_time >= scene["timestamp"]` increment the number and take
the score, otherwise break. -/
def sceneInfoLoop (t : ℚ) : List SceneEvent → ℕ → ℚ → ℕ × ℚ
  | [], n, s => (n, s)
  | e :: rest, n, s =>
    if e.timestamp ≤ t then sceneInfoLoop t rest (n + 1) e.scene_score
    else (n, s)

/-- Scene annotation of a single frame time (`scene_selection.py` lines 74-83):
`scene_number` starts at 1 and `scene_score` at 0. -/
def sceneInfo (t : ℚ) (events : List SceneEvent) : ℕ × ℚ :=
  sceneInfoLoop t events 1 0

/-- AnnotatedFrame: a frame row extended with the merged scene fields
(`scene_selection.py` lines 85-86 and 318-319). -/
structure AnnotatedRow where
  frame : FrameRow
  sceneNumber : ℕ
  sceneScore : ℚ
deriving DecidableEq

/-- Timeline Merger (`scene_selection.py` lines 73-86 and 308-319): each frame
row is annotated from its stored `Time (seconds)` value (`frame_time =
frame["Time (seconds)"]`). -/
def annotateRows (rows : List FrameRow) (events : List SceneEvent) : List AnnotatedRow :=
  rows.map (fun r =>
    { frame := r, sceneNumber := (sceneInfo r.timeSeconds events).1
      sceneScore := (sceneInfo r.timeSeconds events).2 })

/-- Frame listing (`scene_selection.py` lines 53 and 292):
a sorted comprehension keeping the listdir entries whose name ends in the
`.jpg` suffix. -/
def endsWithJpg (f : String) : Bool := ".jpg".data.isSuffixOf f.data

/-- Sorted, filtered frame listing; Python `sorted` on strings is the
lexicographic order on code points, which is the `≤` of `String`. -/
def sortedFrameFiles (entries : List String) : List String :=
  (entries.filter endsWithJpg).mergeSort (fun a b => decide (a ≤ b))

/-- Result of the frame organization stage: the returned dict has either
`status: error` with a message, or `status: success` with the annotated table,
`total_frames = len(df)` and `total_scenes = df["Scene Number"].max()`. -/
inductive OrganizeResult where
  | error (msg : String)
  | success (table : List AnnotatedRow) (totalFrames : ℕ) (totalScenes : ℕ)
deriving DecidableEq

/-- Maximum of the `Scene Number` column; only evaluated on a non-empty table
(matching the pandas call, which is only reached error-free in that case). -/
def maxSceneNumber (table : List AnnotatedRow) : ℕ :=
  (table.map (fun r => r.sceneNumber)).foldl Nat.max 0

/-- Embedding of `organize_existing_frames_table` (`scene_selection.py` lines
273-343).  Filesystem and subprocess effects are made explicit:
`dirListing` is `none` when `os.path.exists(frames_dir)` is false and otherwise
holds the `os.listdir` result, and `events` is the output of the (external)
scene detection on the video.  Two exceptions are caught by the enclosing
`try/except` and surface as `status: error`: with at least one frame file and
`fps = 0`, Python `i / fps` raises `ZeroDivisionError` (message `float division
by zero`); with zero frame files, `pd.DataFrame([])` has no columns, so the
`df["Scene Number"].max()` in the success dict raises a `KeyError` naming the
`Scene Number` column.  `organize_frames_table` (lines 13-115) shares lines
53-86 with this function verbatim after the external extraction step, so the
embedding below also covers its listing, derivation and merge logic. -/
def organize_existing_frames_table (framesDir : String) (dirListing : Option (List String))
    (fps : ℚ) (events : List SceneEvent) : OrganizeResult :=
  match dirListing with
  | none => .error ("Frames directory not found: " ++ framesDir)
  | some entries =>
    let frameFiles := sortedFrameFiles entries
    if frameFiles ≠ [] ∧ fps = 0 then .error "float division by zero"
    else
      let table := annotateRows (buildRows framesDir fps frameFiles) events
      if table = [] then .error "KeyError: Scene Number"
      else .success table table.length (maxSceneNumber table)

/-- Selection exchange document entry as read by `script_generator.main`
(`script_generator.py` lines 183-185): `entry.get(...)` yields `None`
(modelled `none`) when the key is absent. -/
structure SelectionEntry where
  timestamp : Option String
  frame_file : Option String
deriving DecidableEq

/-- Element of `frames_data` as built by `script_generator.main`
(`script_generator.py` lines 195-199). -/
structure PreparedFrame where
  timestamp : String
  image_path : String
  frame_file : String
deriving DecidableEq

/-- Resolution of a single selection entry, stated per entry: skip it when
either field is absent or empty (Python falsiness) or when the referenced file
does not exist, and otherwise produce the prepared record. -/
def resolveEntry (framesDir : String) (fileExists : String → Bool)
    (e : SelectionEntry) : Option PreparedFrame :=
  match e.frame_file, e.timestamp with
  | some ff, some ts =>
    if ff = "" || ts = "" then none
    else if fileExists (pathJoin framesDir ff) then
      some { timestamp := ts, image_path := pathJoin framesDir ff, frame_file := ff }
    else none
  | _, _ => none

/-- Embedding of the `frames_data` preparation loop of `script_generator.main`
(`script_generator.py` lines 182-199): entries with a missing or empty
`frame_file` or `timestamp` are skipped, entries whose joined path does not
exist on disk are skipped with a warning, the rest are appended in document
order. -/
def prepareFramesData (framesDir : String) (fileExists : String → Bool) :
    List SelectionEntry → List PreparedFrame
  | [] => []
  | e :: rest =>
    match e.frame_file, e.timestamp with
    | some ff, some ts =>
      if ff = "" || ts = "" then prepareFramesData framesDir fileExists rest
      else if fileExists (pathJoin framesDir ff) then
        { timestamp := ts, image_path := pathJoin framesDir ff, frame_file := ff } ::
          prepareFramesData framesDir fileExists rest
      else prepareFramesData framesDir fileExists rest
    | _, _ => prepareFramesData framesDir fileExists rest

/-- Embedding of `analyze_all_frames_together` (`script_generator.py` lines
17-118).  The prompt construction, image encoding and API call live inside one
`try`; the outcome of the external generation call is the explicit
`generationResult` argument.  On success the response content is returned
stripped (line 114); any exception is caught and the function returns the
string `"Error: " + str(e)` instead of raising (lines 116-118). -/
def analyze_all_frames_together (framesData : List PreparedFrame)
    (movieStyle targetAudience : String)
    (generationResult : Except String String) : String :=
  match framesData, generationResult with
  | _, Except.ok text => String.mk (pyStrip text.data)
  | _, Except.error e => "Error: " ++ e

/-- Separator line of 80 equals-sign characters in the output artifact. -/
def eqSeparator : String := String.mk (List.replicate 80 '=')

/-- Separator line of 40 dash characters in the output artifact. -/
def dashSeparator : String := String.mk (List.replicate 40 '-')

/-- Content written to `<prefix>_storyscript.txt` by `script_generator.main`
(`script_generator.py` lines 212-220): the run-label/style/audience header,
two separator lines, and the storyline body. -/
def outputArtifact (runLabel movieStyle targetAudience storyline : String) : String :=
  "视频故事分析: " ++ runLabel ++ "\n" ++
  "电影风格: " ++ movieStyle ++ "\n" ++
  "目标观众: " ++ targetAudience ++ "\n" ++
  eqSeparator ++ "\n\n" ++
  "个性化时间戳描述\n" ++
  dashSeparator ++ "\n" ++
  storyline ++ "\n"

/-- Possible outcomes of a `script_generator.main` run.  The first four are
the early `return`s of lines 167-168, 170-171, 176-177 and 202-203 — plain
returns, not raised errors; `completed` carries the prepared frames and the
artifact content written to the output file. -/
inductive RunOutcome where
  | missingSelectionFile
  | missingFramesDir
  | emptySelection
  | noValidFrames
  | completed (framesData : List PreparedFrame) (artifact : String)
deriving DecidableEq

/-- Embedding of the `script_generator.main` pipeline after the interactive
prompts (`script_generator.py` lines 161-223): check the selection file and
frames directory, load entries, resolve them against the directory, stop as a
no-op when nothing resolves, otherwise analyze and write the artifact. -/
def scriptGeneratorMain (runLabel : String) (selectionFileExists framesDirExists : Bool)
    (selectedFrames : List SelectionEntry) (fileExists : String → Bool)
    (movieStyle targetAudience : String)
    (generationResult : Except String String) : RunOutcome :=
  if !selectionFileExists then .missingSelectionFile
  else if !framesDirExists then .missingFramesDir
  else if selectedFrames = [] then .emptySelection
  else
    let framesDir := runLabel ++ "_extracted_frames"
    let framesData := prepareFramesData framesDir fileExists selectedFrames
    if framesData = [] then .noValidFrames
    else
      .completed framesData
        (outputArtifact runLabel movieStyle targetAudience
          (analyze_all_frames_together framesData movieStyle targetAudience generationResult))

/-- Consecutive non-overlapping line pairs `(lines[0], lines[1]), (lines[2],
lines[3]), ...`, the pairs visited by `for i in range(0, len(lines), 2)` under
the `i + 1 < len(lines)` guard. -/
def linePairs : List (List Char) → List (List Char × List Char)
  | l0 :: l1 :: rest => (l0, l1) :: linePairs rest
  | _ => []

/-- Per-pair event extraction, stated for a single line pair: the
`scene_selection` parser emits an event exactly when the frame line has a
`pts_time:` float and the score line has a `scene_score=` float.  Used as the
refinement target for the pair loop. -/
def ssPairEvent (p : List Char × List Char) : Option SceneEvent :=
  match searchFloatAfter "pts_time:".data p.1,
        searchFloatAfter "scene_score=".data p.2 with
  | some t, some s => some ⟨floatTokToRat t, floatTokToRat s⟩
  | _, _ => none

/-- Per-pair extraction of the `video_processor` parser: it additionally
demands a `frame:` integer in the frame line. -/
def vpPairEvent (p : List Char × List Char) : Option SceneChange :=
  match searchFloatAfter "pts_time:".data p.1,
        searchNatAfter "frame:".data p.1,
        searchFloatAfter "scene_score=".data p.2 with
  | some t, some n, some s => some ⟨floatTokToRat t, digitsToNat n, floatTokToRat s⟩
  | _, _, _ => none

example : detect_scene_changes "" = [] := by decide
example :
    detect_scene_changes "lavfi.scene pts_time:1.5 x\nlavfi.scene_score=0.42" =
      [⟨mkRat 3 2, mkRat 21 50⟩] := by decide
example :
    FFmpegVideoProcessor.detect_scene_changes "pts_time:1.5\nscene_score=0.42" = [] := by
  decide
example :
    FFmpegVideoProcessor.detect_scene_changes "frame:7 pts_time:1.5\nscene_score=0.42" =
      [⟨mkRat 3 2, 7, mkRat 21 50⟩] := by decide

/-! Helper lemmas shared by several results. -/

theorem sortedFrameFiles_singleton (a : String) :
    sortedFrameFiles [a] = if endsWithJpg a then [a] else [] := by
  by_cases h : endsWithJpg a <;>
    simp [sortedFrameFiles, h, List.mergeSort_nil, List.mergeSort_singleton]

theorem buildRows_length (framesDir : String) (fps : ℚ) (files : List String) :
    (buildRows framesDir fps files).length = files.length := by
  simp [buildRows, List.length_map, List.enum_length]

theorem annotateRows_length (rows : List FrameRow) (events : List SceneEvent) :
    (annotateRows rows events).length = rows.length := by
  simp [annotateRows, List.length_map]

theorem buildRows_get (framesDir : String) (fps : ℚ) (files : List String)
    (i : ℕ) (hi : i < (buildRows framesDir fps files).length) :
    (buildRows framesDir fps files).get ⟨i, hi⟩ =
      { timestampLabel := format_timestamp (frameTimestamp fps i)
        timeSeconds := pyRound2 (frameTimestamp fps i)
        frameNumber := i + 1
        frameFile := files.get ⟨i, by simpa [buildRows_length] using hi⟩
        framePath :=
          pathJoin framesDir (files.get ⟨i, by simpa [buildRows_length] using hi⟩) } := by
  have hi2 : i < files.length := by simpa [buildRows_length] using hi
  simp [buildRows, List.getElem_map, List.getElem_enum]

theorem annotateRows_get (rows : List FrameRow) (events : List SceneEvent)
    (i : ℕ) (hi : i < (annotateRows rows events).length) :
    (annotateRows rows events).get ⟨i, hi⟩ =
      { frame := rows.get ⟨i, by simpa [annotateRows_length] using hi⟩
        sceneNumber :=
          (sceneInfo (rows.get ⟨i, by simpa [annotateRows_length] using hi⟩).timeSeconds
            events).1
        sceneScore :=
          (sceneInfo (rows.get ⟨i, by simpa [annotateRows_length] using hi⟩).timeSeconds
            events).2 } := by
  simp [annotateRows, List.getElem_map]

/-- The running scene number never decreases below its starting value. -/
theorem sceneInfoLoop_fst_ge (t : ℚ) (events : List SceneEvent) (n : ℕ) (s : ℚ) :
    n ≤ (sceneInfoLoop t events n s).1 := by
  induction events generalizing n s with
  | nil => simp [sceneInfoLoop]
  | cons e rest ih =>
    by_cases hc : e.timestamp ≤ t
    · simpa [sceneInfoLoop, hc] using le_trans (Nat.le_succ n) (ih (n + 1) e.scene_score)
    · simp [sceneInfoLoop, hc]

/-- The scene number computed by the merge loop is monotone in the frame
time, for any event list. -/
theorem sceneInfoLoop_fst_mono (events : List SceneEvent) (t₁ t₂ : ℚ) (h : t₁ ≤ t₂)
    (n : ℕ) (s₁ s₂ : ℚ) :
    (sceneInfoLoop t₁ events n s₁).1 ≤ (sceneInfoLoop t₂ events n s₂).1 := by
  induction events generalizing n s₁ s₂ with
  | nil => simp [sceneInfoLoop]
  | cons e rest ih =>
    by_cases hc : e.timestamp ≤ t₁
    · have hc2 : e.timestamp ≤ t₂ := le_trans hc h
      simpa [sceneInfoLoop, hc, hc2] using ih (n + 1) e.scene_score e.scene_score
    · calc (sceneInfoLoop t₁ (e :: rest) n s₁).1 = n := by simp [sceneInfoLoop, hc]
      _ ≤ (sceneInfoLoop t₂ (e :: rest) n s₂).1 := sceneInfoLoop_fst_ge t₂ (e :: rest) n s₂

/-- Characterization of the merge loop on an event list sorted by
non-decreasing timestamp: starting from running values `(n, s)`, the result is
`n` plus the number of events at or before `t`, and the score of the last such
event (or `s` when there is none). -/
theorem sceneInfoLoop_eq_of_sorted (t : ℚ) (events : List SceneEvent)
    (h : List.Pairwise (fun a b : SceneEvent => a.timestamp ≤ b.timestamp) events)
    (n : ℕ) (s : ℚ) :
    sceneInfoLoop t events n s =
      (n + (events.filter (fun e => decide (e.timestamp ≤ t))).length,
       ((events.filter (fun e => decide (e.timestamp ≤ t))).getLast?).elim s
         (fun e => e.scene_score)) := by
  induction events generalizing n s with
  | nil => simp [sceneInfoLoop]
  | cons e rest ih =>
    rcases List.pairwise_cons.mp h with ⟨hhead, htail⟩
    by_cases hc : e.timestamp ≤ t
    · rw [sceneInfoLoop, if_pos hc, ih htail,
        List.filter_cons_of_pos (by simpa using hc)]
      rcases hfr : rest.filter (fun e2 => decide (e2.timestamp ≤ t)) with _ | ⟨x, xs⟩
      · simp [hfr]
      · have hy : ∃ y, (x :: xs).getLast? = some y := by
          cases hxs : (x :: xs).getLast? with
          | none => simp at hxs
          | some y => exact ⟨y, rfl⟩
        rcases hy with ⟨y, hy⟩
        simp [hfr, List.getLast?_cons_cons, hy, Prod.ext_iff]
        omega
    · have hfil : rest.filter (fun e2 => decide (e2.timestamp ≤ t)) = [] := by
        refine List.filter_eq_nil_iff.mpr (fun x hx => ?_)
        simp only [decide_eq_true_eq]
        intro hxt
        exact hc (le_trans (hhead x hx) hxt)
      rw [sceneInfoLoop, if_neg hc, List.filter_cons_of_neg (by simpa using hc), hfil]
      simp

/-- The pair loop of the `scene_selection` parser is the per-pair extraction
mapped over the consecutive line pairs. -/
theorem parsePairs_eq_filterMap : ∀ lines : List (List Char),
    parsePairs lines = (linePairs lines).filterMap ssPairEvent
  | [] => rfl
  | [_] => rfl
  | l0 :: l1 :: rest => by
    rcases h1 : searchFloatAfter "pts_time:".data l0 with _ | t <;>
      rcases h2 : searchFloatAfter "scene_score=".data l1 with _ | s <;>
        simp [parsePairs, linePairs, ssPairEvent, h1, h2,
          parsePairs_eq_filterMap rest]

/-- The pair loop of the `video_processor` parser is its per-pair extraction
mapped over the consecutive line pairs. -/
theorem parsePairsVP_eq_filterMap : ∀ lines : List (List Char),
    FFmpegVideoProcessor.parsePairsVP lines = (linePairs lines).filterMap vpPairEvent
  | [] => rfl
  | [_] => rfl
  | l0 :: l1 :: rest => by
    rcases h1 : searchFloatAfter "pts_time:".data l0 with _ | t <;>
      rcases h2 : searchNatAfter "frame:".data l0 with _ | n <;>
        rcases h3 : searchFloatAfter "scene_score=".data l1 with _ | s <;>
          simp [FFmpegVideoProcessor.parsePairsVP, linePairs, vpPairEvent, h1, h2, h3,
            parsePairsVP_eq_filterMap rest]

/-- C7: the Scene Event Parser applied to empty or whitespace-only log text
yields an empty event sequence; the embedded parser is a total function, so no
error is raised. -/
theorem c7_parser_empty_input (content : String)
    (h : ∀ c ∈ content.data, isPySpace c = true) :
    detect_scene_changes content = [] := by
  have h1 : content.data.dropWhile isPySpace = [] :=
    List.dropWhile_eq_nil_iff.mpr h
  unfold detect_scene_changes pyStrip
  rw [h1]
  rfl

theorem c7_parser_empty_input_witness :
    (∀ c ∈ (" \n\t ").data, isPySpace c = true) ∧
      detect_scene_changes " \n\t " = [] :=
  ⟨by decide, c7_parser_empty_input " \n\t " (by decide)⟩

/-- C4 (amended): each parser emits one event per consecutive line pair with
its required fields present and silently skips the other pairs, continuing
with the rest; for `scene_selection.detect_scene_changes` the required fields
are `pts_time` and `scene_score` only — a frame-number field is never needed —
while `FFmpegVideoProcessor.detect_scene_changes` additionally requires a
`frame:` integer field in the frame line. -/
theorem c4_parser_pair_skipping (content : String) :
    detect_scene_changes content =
      (linePairs (splitNl (pyStrip content.data))).filterMap ssPairEvent ∧
    FFmpegVideoProcessor.detect_scene_changes content =
      (linePairs (splitNl (pyStrip content.data))).filterMap vpPairEvent ∧
    (∀ (l0 l1 : List Char) (t s : List Char),
      searchFloatAfter "pts_time:".data l0 = some t →
      searchFloatAfter "scene_score=".data l1 = some s →
      parsePairs [l0, l1] = [⟨floatTokToRat t, floatTokToRat s⟩]) := by
  refine ⟨parsePairs_eq_filterMap _, parsePairsVP_eq_filterMap _, ?_⟩
  intro l0 l1 t s h1 h2
  simp [parsePairs, h1, h2]

theorem c4_parser_pair_skipping_witness :
    searchFloatAfter "pts_time:".data "pts_time:1.5".data = some "1.5".data ∧
    searchFloatAfter "scene_score=".data "scene_score=0.5".data = some "0.5".data ∧
    parsePairs ["pts_time:1.5".data, "scene_score=0.5".data] =
      [⟨floatTokToRat "1.5".data, floatTokToRat "0.5".data⟩] :=
  ⟨by decide, by decide,
    (c4_parser_pair_skipping "").2.2 "pts_time:1.5".data "scene_score=0.5".data
      "1.5".data "0.5".data (by decide) (by decide)⟩

/-- C4 counterexample: a line pair carrying both a `pts_time` field and a
`scene_score` field but no frame-number field yields an event in the
`scene_selection` parser yet is dropped by the `video_processor` parser, so
the frame-number field IS required there. -/
theorem c4_counterexample :
    FFmpegVideoProcessor.detect_scene_changes "pts_time:1.5\nscene_score=0.5" = [] ∧
    detect_scene_changes "pts_time:1.5\nscene_score=0.5" =
      [⟨mkRat 3 2, mkRat 1 2⟩] := by
  constructor
  · decide
  · decide

/-- C2: on a scene-event sequence sorted by non-decreasing timestamp, the
Timeline Merger annotates each frame with `scene_number` equal to 1 plus the
number of events whose timestamp is at or before (boundary inclusive) the
stored timestamp of the frame, and with `scene_score` equal to the score of the
most recent such event, or 0 when there is none. -/
theorem c2_merger_assignment (events : List SceneEvent) (rows : List FrameRow)
    (hsorted : List.Sorted (fun a b : SceneEvent => a.timestamp ≤ b.timestamp) events) :
    annotateRows rows events = rows.map (fun r =>
      { frame := r
        sceneNumber :=
          1 + (events.filter (fun e => decide (e.timestamp ≤ r.timeSeconds))).length
        sceneScore :=
          ((events.filter (fun e => decide (e.timestamp ≤ r.timeSeconds))).getLast?).elim 0
            (fun e => e.scene_score) }) := by
  unfold annotateRows sceneInfo
  refine List.map_congr_left (fun r _ => ?_)
  rw [sceneInfoLoop_eq_of_sorted r.timeSeconds events hsorted 1 0]

theorem c2_merger_assignment_witness :
    List.Sorted (fun a b : SceneEvent => a.timestamp ≤ b.timestamp)
      [⟨1, mkRat 1 2⟩, ⟨2, mkRat 3 4⟩] ∧
    annotateRows [⟨"00:00:02.000", 2, 1, "a.jpg", "d/a.jpg"⟩]
        [⟨1, mkRat 1 2⟩, ⟨2, mkRat 3 4⟩] =
      [⟨"00:00:02.000", 2, 1, "a.jpg", "d/a.jpg"⟩].map (fun r =>
        { frame := r
          sceneNumber :=
            1 + (([⟨1, mkRat 1 2⟩, ⟨2, mkRat 3 4⟩] : List SceneEvent).filter
              (fun e => decide (e.timestamp ≤ r.timeSeconds))).length
          sceneScore :=
            ((([⟨1, mkRat 1 2⟩, ⟨2, mkRat 3 4⟩] : List SceneEvent).filter
              (fun e => decide (e.timestamp ≤ r.timeSeconds))).getLast?).elim 0
              (fun e => e.scene_score) }) :=
  ⟨by decide, c2_merger_assignment [⟨1, mkRat 1 2⟩, ⟨2, mkRat 3 4⟩]
    [⟨"00:00:02.000", 2, 1, "a.jpg", "d/a.jpg"⟩] (by decide)⟩

/-- C5: on frame rows whose stored timestamps are non-decreasing and a
scene-event sequence sorted by non-decreasing timestamp, the merged table has
non-decreasing scene numbers: `scene_number(frame[i]) >= scene_number(frame[i-1])`
for every `i > 0`. -/
theorem c5_scene_number_monotone (rows : List FrameRow) (events : List SceneEvent)
    (hrows : List.Chain' (fun a b : FrameRow => a.timeSeconds ≤ b.timeSeconds) rows)
    (hevents : List.Sorted (fun a b : SceneEvent => a.timestamp ≤ b.timestamp) events) :
    List.Chain' (fun a b : AnnotatedRow => a.sceneNumber ≤ b.sceneNumber)
      (annotateRows rows events) := by
  unfold annotateRows
  rw [List.chain'_map]
  exact List.Chain'.imp
    (fun a b hab => sceneInfoLoop_fst_mono events a.timeSeconds b.timeSeconds hab 1 0 0)
    hrows

theorem c5_scene_number_monotone_witness :
    List.Chain' (fun a b : FrameRow => a.timeSeconds ≤ b.timeSeconds)
      [⟨"00:00:00.000", 0, 1, "a.jpg", "d/a.jpg"⟩,
       ⟨"00:00:01.000", 1, 2, "b.jpg", "d/b.jpg"⟩] ∧
    List.Sorted (fun a b : SceneEvent => a.timestamp ≤ b.timestamp)
      [⟨1, mkRat 1 2⟩] ∧
    List.Chain' (fun a b : AnnotatedRow => a.sceneNumber ≤ b.sceneNumber)
      (annotateRows
        [⟨"00:00:00.000", 0, 1, "a.jpg", "d/a.jpg"⟩,
         ⟨"00:00:01.000", 1, 2, "b.jpg", "d/b.jpg"⟩]
        [⟨1, mkRat 1 2⟩]) :=
  ⟨by simp [List.chain'_cons], by decide,
    c5_scene_number_monotone
      [⟨"00:00:00.000", 0, 1, "a.jpg", "d/a.jpg"⟩,
       ⟨"00:00:01.000", 1, 2, "b.jpg", "d/b.jpg"⟩]
      [⟨1, mkRat 1 2⟩] (by simp [List.chain'_cons]) (by decide)⟩

/-- C3: when the frames directory does not exist, or exists with zero matching
`.jpg` entries, the stage returns an error status distinct from success — the
missing directory is reported directly, and the zero-frame run ends in the
caught column-lookup `KeyError` on the empty table — never a successful empty
table. -/
theorem c3_missing_or_empty_source_errors (framesDir : String) (fps : ℚ)
    (events : List SceneEvent) (entries : List String)
    (hempty : entries.filter endsWithJpg = []) :
    organize_existing_frames_table framesDir none fps events =
      OrganizeResult.error ("Frames directory not found: " ++ framesDir) ∧
    organize_existing_frames_table framesDir (some entries) fps events =
      OrganizeResult.error "KeyError: Scene Number" := by
  constructor
  · rfl
  · have h : sortedFrameFiles entries = [] := by
      rw [sortedFrameFiles, hempty, List.mergeSort_nil]
    simp [organize_existing_frames_table, h, annotateRows, buildRows]

theorem c3_missing_or_empty_source_errors_witness :
    (["frame_0001.png"].filter endsWithJpg = []) ∧
    organize_existing_frames_table "d" none 1 [] =
      OrganizeResult.error ("Frames directory not found: " ++ "d") ∧
    organize_existing_frames_table "d" (some ["frame_0001.png"]) 1 [] =
      OrganizeResult.error "KeyError: Scene Number" :=
  ⟨by decide, c3_missing_or_empty_source_errors "d" 1 [] ["frame_0001.png"] (by decide)⟩

/-- C6 counterexample: 0 is a non-negative sampling rate, yet with one frame
file present the sampler produces no one-frame table at rate 0: the Python
division `i / fps` raises `ZeroDivisionError` and the stage reports an error
status, refuting the claim for rate 0. -/
theorem c6_counterexample :
    (0 : ℚ) ≤ 0 ∧
    organize_existing_frames_table "d" (some ["frame_0001.jpg"]) 0 [] =
      OrganizeResult.error "float division by zero" := by
  refine ⟨le_refl 0, ?_⟩
  simp only [organize_existing_frames_table, sortedFrameFiles_singleton]
  decide

/-- C6 (amended): for every positive sampling rate, the Frame Sampler produces
exactly one table row per matching frame file; the row at 0-based index i
surfaces the 1-based frame number i+1 and stores the derived timestamp
`i / fps` rounded to two decimals, and the derived timestamps
`0, 1/rate, 2/rate, ...` are strictly increasing.  At rate 0 the stage instead
fails with a division error. -/
theorem c6_frame_sampler (framesDir : String) (fps : ℚ) (events : List SceneEvent)
    (entries : List String) (hfps : 0 < fps)
    (hne : sortedFrameFiles entries ≠ []) :
    ∃ table : List AnnotatedRow,
      organize_existing_frames_table framesDir (some entries) fps events =
        OrganizeResult.success table table.length (maxSceneNumber table) ∧
      table.length = (sortedFrameFiles entries).length ∧
      (∀ i (hi : i < table.length),
        (table.get ⟨i, hi⟩).frame.frameNumber = i + 1 ∧
        (table.get ⟨i, hi⟩).frame.timeSeconds = pyRound2 (frameTimestamp fps i)) ∧
      StrictMono (frameTimestamp fps) := by
  have hfps0 : ¬fps = 0 := ne_of_gt hfps
  refine ⟨annotateRows (buildRows framesDir fps (sortedFrameFiles entries)) events,
    ?_, ?_, ?_, ?_⟩
  · have htab :
        annotateRows (buildRows framesDir fps (sortedFrameFiles entries)) events ≠ [] := by
      intro hcon
      apply hne
      have := congrArg List.length hcon
      simpa [annotateRows_length, buildRows_length] using this
    simp [organize_existing_frames_table, hfps0, htab]
  · rw [annotateRows_length, buildRows_length]
  · intro i hi
    rw [annotateRows_get, buildRows_get]
    exact ⟨rfl, rfl⟩
  · intro i j hij
    have : (i : ℚ) < (j : ℚ) := by exact_mod_cast hij
    exact (div_lt_div_iff_of_pos_right hfps).mpr this

theorem c6_frame_sampler_witness :
    (0 : ℚ) < 2 ∧ sortedFrameFiles ["a.jpg"] ≠ [] ∧
    (∃ table : List AnnotatedRow,
      organize_existing_frames_table "d" (some ["a.jpg"]) 2 [] =
        OrganizeResult.success table table.length (maxSceneNumber table) ∧
      table.length = (sortedFrameFiles ["a.jpg"]).length ∧
      (∀ i (hi : i < table.length),
        (table.get ⟨i, hi⟩).frame.frameNumber = i + 1 ∧
        (table.get ⟨i, hi⟩).frame.timeSeconds = pyRound2 (frameTimestamp 2 i)) ∧
      StrictMono (frameTimestamp 2)) :=
  ⟨by decide, by rw [sortedFrameFiles_singleton]; decide,
    c6_frame_sampler "d" 2 [] ["a.jpg"] (by decide)
      (by rw [sortedFrameFiles_singleton]; decide)⟩

/-- C1 (amended): the value the Timeline Merger compares against scene-event
timestamps is the stored `Time (seconds)` field of the frame, which is
`sequence_index / sampling_rate` rounded to two decimal places — so rounding
happens before the merge, not only at export time, and (per the
counterexample) it can change which scene_number and scene_score a frame
receives; only the `HH:MM:SS.mmm` label column is purely presentational. -/
theorem c1_merger_compares_rounded_time (framesDir : String) (fps : ℚ)
    (files : List String) (events : List SceneEvent) (i : ℕ)
    (hi : i < (annotateRows (buildRows framesDir fps files) events).length) :
    ((annotateRows (buildRows framesDir fps files) events).get ⟨i, hi⟩).sceneNumber =
      (sceneInfo (pyRound2 (frameTimestamp fps i)) events).1 ∧
    ((annotateRows (buildRows framesDir fps files) events).get ⟨i, hi⟩).sceneScore =
      (sceneInfo (pyRound2 (frameTimestamp fps i)) events).2 := by
  rw [annotateRows_get, buildRows_get]
  exact ⟨rfl, rfl⟩

theorem c1_merger_compares_rounded_time_witness :
    0 < (annotateRows (buildRows "d" 2 ["a.jpg"]) [⟨1, mkRat 1 2⟩]).length ∧
    ((annotateRows (buildRows "d" 2 ["a.jpg"]) [⟨1, mkRat 1 2⟩]).get
        ⟨0, by simp [annotateRows_length, buildRows_length]⟩).sceneNumber =
      (sceneInfo (pyRound2 (frameTimestamp 2 0)) [⟨1, mkRat 1 2⟩]).1 :=
  ⟨by simp [annotateRows_length, buildRows_length],
    (c1_merger_compares_rounded_time "d" 2 ["a.jpg"] [⟨1, mkRat 1 2⟩] 0
      (by simp [annotateRows_length, buildRows_length])).1⟩

/-- C1 counterexample: with rate 3 and a single scene event at 0.333 with
score 0.42, frame index 1 has exact derived timestamp 1/3 ≥ 0.333, so a merge
against the exact timestamp would assign scene number 2; but the code stores
0.33 in the table and the merger assigns scene number 1 — rounding to two
decimals changed the scene assignment, refuting the claim. -/
theorem c1_counterexample :
    (buildRows "d" 3 ["a.jpg", "b.jpg"]).map (fun r => r.timeSeconds) =
      [0, mkRat 33 100] ∧
    (annotateRows (buildRows "d" 3 ["a.jpg", "b.jpg"])
        [⟨mkRat 333 1000, mkRat 42 100⟩]).map (fun r => r.sceneNumber) = [1, 1] ∧
    mkRat 333 1000 ≤ frameTimestamp 3 1 ∧
    (sceneInfo (frameTimestamp 3 1) [⟨mkRat 333 1000, mkRat 42 100⟩]).1 = 2 := by
  refine ⟨?_, ?_, ?_, ?_⟩
  · norm_num [buildRows, pyRound2, roundHalfEven, frameTimestamp, List.enum, List.enumFrom]
  · norm_num [annotateRows, buildRows, sceneInfo, sceneInfoLoop, pyRound2, roundHalfEven,
      frameTimestamp, List.enum, List.enumFrom]
  · norm_num [frameTimestamp]
  · norm_num [sceneInfo, sceneInfoLoop, frameTimestamp]

/-- C10: the table includes exactly the directory entries whose names end in
`.jpg`, sorted lexically; the rows correspond positionally to the sorted
filtered listing (so every non-.jpg entry is excluded and the positions —
hence frame numbers and derived timestamps — of the remaining frames are
assigned within that shifted list), and a directory holding only non-.jpg
files behaves exactly like an empty directory. -/
theorem c10_jpg_filtering (entries : List String) (framesDir : String) (fps : ℚ)
    (events : List SceneEvent) :
    (∀ f, f ∈ sortedFrameFiles entries ↔ f ∈ entries ∧ endsWithJpg f = true) ∧
    List.Sorted (fun a b : String => a ≤ b) (sortedFrameFiles entries) ∧
    (annotateRows (buildRows framesDir fps (sortedFrameFiles entries)) events).map
      (fun r => r.frame.frameFile) = sortedFrameFiles entries ∧
    ((∀ f ∈ entries, endsWithJpg f = false) →
      organize_existing_frames_table framesDir (some entries) fps events =
        organize_existing_frames_table framesDir (some []) fps events) := by
  refine ⟨?_, ?_, ?_, ?_⟩
  · intro f
    rw [sortedFrameFiles, List.mem_mergeSort, List.mem_filter]
  · have htrans : ∀ a b c : String,
        decide (a ≤ b) = true → decide (b ≤ c) = true → decide (a ≤ c) = true := by
      intro a b c hab hbc
      simp only [decide_eq_true_eq] at hab hbc ⊢
      exact le_trans hab hbc
    have htot : ∀ a b : String, (decide (a ≤ b) || decide (b ≤ a)) = true := by
      intro a b
      simpa using le_total a b
    have hp := List.sorted_mergeSort htrans htot (entries.filter endsWithJpg)
    rw [sortedFrameFiles]
    exact hp.imp (fun h => by simpa using h)
  · simp [annotateRows, buildRows, List.map_map, Function.comp_def, List.enum_map_snd]
  · intro hall
    have h : sortedFrameFiles entries = [] := by
      rw [sortedFrameFiles, List.filter_eq_nil_iff.mpr
        (fun a ha => by simp [hall a ha]), List.mergeSort_nil]
    have h0 : sortedFrameFiles [] = [] := by
      rw [sortedFrameFiles]
      simp [List.mergeSort_nil]
    simp [organize_existing_frames_table, h, h0]

theorem c10_jpg_filtering_witness :
    ("a.jpg" ∈ sortedFrameFiles ["x.png", "a.jpg"] ↔
      "a.jpg" ∈ ["x.png", "a.jpg"] ∧ endsWithJpg "a.jpg" = true) ∧
    ((∀ f ∈ ["x.png"], endsWithJpg f = false) →
      organize_existing_frames_table "d" (some ["x.png"]) 1 [] =
        organize_existing_frames_table "d" (some []) 1 []) :=
  ⟨(c10_jpg_filtering ["x.png", "a.jpg"] "d" 1 []).1 "a.jpg",
    (c10_jpg_filtering ["x.png"] "d" 1 []).2.2.2⟩

/-- The resolution loop of the Narration Bridge equals the per-entry
resolution mapped over the selection document. -/
theorem prepareFramesData_eq_filterMap (framesDir : String)
    (fileExists : String → Bool) :
    ∀ entries : List SelectionEntry,
      prepareFramesData framesDir fileExists entries =
        entries.filterMap (resolveEntry framesDir fileExists)
  | [] => rfl
  | e :: rest => by
    have ih := prepareFramesData_eq_filterMap framesDir fileExists rest
    rcases e with ⟨ts, ff⟩
    rcases ff with _ | ff
    · simp [prepareFramesData, resolveEntry, ih, List.filterMap_cons]
    · rcases ts with _ | ts
      · simp [prepareFramesData, resolveEntry, ih, List.filterMap_cons]
      · by_cases h1 : ff = "" || ts = ""
        · simp [prepareFramesData, resolveEntry, h1, ih, List.filterMap_cons]
        · by_cases h2 : fileExists (pathJoin framesDir ff)
          · simp [prepareFramesData, resolveEntry, h1, h2, ih, List.filterMap_cons]
          · simp [prepareFramesData, resolveEntry, h1, h2, ih, List.filterMap_cons]

/-- C8: the Narration Bridge resolves selection entries one at a time — each
entry with a missing/empty field or whose referenced frame file does not exist
in the frames directory is skipped and the loop continues, and the surviving
entries keep the order of the selection document (the loop equals a per-entry
filterMap); when zero entries of a non-empty selection resolve, the run ends
early with the no-op `noValidFrames` outcome (a plain return, not an
error). -/
theorem c8_narration_bridge_skips (runLabel : String) (fileExists : String → Bool)
    (entries : List SelectionEntry) (movieStyle targetAudience : String)
    (gen : Except String String) :
    prepareFramesData (runLabel ++ "_extracted_frames") fileExists entries =
      entries.filterMap (resolveEntry (runLabel ++ "_extracted_frames") fileExists) ∧
    (entries ≠ [] →
      prepareFramesData (runLabel ++ "_extracted_frames") fileExists entries = [] →
      scriptGeneratorMain runLabel true true entries fileExists movieStyle
        targetAudience gen = RunOutcome.noValidFrames) := by
  refine ⟨prepareFramesData_eq_filterMap _ _ entries, ?_⟩
  intro hne hprep
  simp [scriptGeneratorMain, hne, hprep]

theorem c8_narration_bridge_skips_witness :
    ([⟨some "00:01", some "a.jpg"⟩] : List SelectionEntry) ≠ [] ∧
    prepareFramesData ("Bun" ++ "_extracted_frames") (fun _ => false)
      [⟨some "00:01", some "a.jpg"⟩] = [] ∧
    scriptGeneratorMain "Bun" true true [⟨some "00:01", some "a.jpg"⟩]
      (fun _ => false) "funny" "adults" (Except.error "boom") =
      RunOutcome.noValidFrames :=
  ⟨by decide, by decide,
    (c8_narration_bridge_skips "Bun" (fun _ => false) [⟨some "00:01", some "a.jpg"⟩]
      "funny" "adults" (Except.error "boom")).2 (by decide) (by decide)⟩

/-- C9: when the external generation call fails, the Narration Bridge captures
the error — `analyze_all_frames_together` returns the inline marker
`"Error: " + e` instead of raising — and the run still completes, writing an
output artifact that starts with the run-label/tone/audience header and
contains the error marker in its body. -/
theorem c9_generation_failure_artifact (runLabel movieStyle targetAudience : String)
    (entries : List SelectionEntry) (fileExists : String → Bool) (e : String)
    (hprep : prepareFramesData (runLabel ++ "_extracted_frames") fileExists entries ≠ [])
    (hne : entries ≠ []) :
    analyze_all_frames_together
      (prepareFramesData (runLabel ++ "_extracted_frames") fileExists entries)
      movieStyle targetAudience (Except.error e) = "Error: " ++ e ∧
    scriptGeneratorMain runLabel true true entries fileExists movieStyle targetAudience
        (Except.error e) =
      RunOutcome.completed
        (prepareFramesData (runLabel ++ "_extracted_frames") fileExists entries)
        (outputArtifact runLabel movieStyle targetAudience ("Error: " ++ e)) ∧
    ("视频故事分析: " ++ runLabel ++ "\n" ++ "电影风格: " ++ movieStyle ++ "\n" ++
      "目标观众: " ++ targetAudience ++ "\n").data <+:
      (outputArtifact runLabel movieStyle targetAudience ("Error: " ++ e)).data ∧
    ("Error: " ++ e).data <:+:
      (outputArtifact runLabel movieStyle targetAudience ("Error: " ++ e)).data := by
  refine ⟨rfl, ?_, ?_, ?_⟩
  · simp [scriptGeneratorMain, hne, hprep, analyze_all_frames_together]
  · refine ⟨(eqSeparator ++ "\n\n" ++ "个性化时间戳描述\n" ++ dashSeparator ++ "\n" ++
      ("Error: " ++ e) ++ "\n").data, ?_⟩
    simp [outputArtifact, String.data_append]
  · refine ⟨("视频故事分析: " ++ runLabel ++ "\n" ++ "电影风格: " ++ movieStyle ++ "\n" ++
      "目标观众: " ++ targetAudience ++ "\n" ++ eqSeparator ++ "\n\n" ++
      "个性化时间戳描述\n" ++ dashSeparator ++ "\n").data, ("\n").data, ?_⟩
    simp [outputArtifact, String.data_append]

theorem c9_generation_failure_artifact_witness :
    prepareFramesData ("Bun" ++ "_extracted_frames") (fun _ => true)
      [⟨some "00:01", some "a.jpg"⟩] ≠ [] ∧
    ([⟨some "00:01", some "a.jpg"⟩] : List SelectionEntry) ≠ [] ∧
    scriptGeneratorMain "Bun" true true [⟨some "00:01", some "a.jpg"⟩]
      (fun _ => true) "funny" "adults" (Except.error "boom") =
      RunOutcome.completed
        (prepareFramesData ("Bun" ++ "_extracted_frames") (fun _ => true)
          [⟨some "00:01", some "a.jpg"⟩])
        (outputArtifact "Bun" "funny" "adults" ("Error: " ++ "boom")) ∧
    ("Error: " ++ "boom").data <:+:
      (outputArtifact "Bun" "funny" "adults" ("Error: " ++ "boom")).data :=
  ⟨by decide, by decide,
    (c9_generation_failure_artifact "Bun" "funny" "adults"
      [⟨some "00:01", some "a.jpg"⟩] (fun _ => true) "boom" (by decide) (by decide)).2.1,
    (c9_generation_failure_artifact "Bun" "funny" "adults"
      [⟨some "00:01", some "a.jpg"⟩] (fun _ => true) "boom" (by decide) (by decide)).2.2.2⟩
